import Mathlib

/-
Verification of the Scribber audio transcription/summarization client
against its design specification.

The definitions below are shallow embeddings of the frontend source:
  - frontend/src/pages/DashboardPage.jsx (update handler, action guards,
    polling fallback)
  - frontend/src/hooks/useWebSocket.js (keepalive, message filtering,
    reconnect policy)
  - frontend/src/pages/GoogleDriveCallbackPage.jsx (OAuth export callback)
  - the shared API layer (useApi.request) and auth context (signOut)
JavaScript nullable strings become `Option String`; JS truthiness on such
values (null/undefined/"" are falsy) is the `truthy` function.
The backend Job Dispatcher is not part of the frontend sources and is
modelled from the specification where a claim needs it.
-/

namespace Scribber

/-- JS truthiness of a nullable string: `null`/`undefined`/`""` are falsy. -/
def truthy : Option String → Bool
  | none => false
  | some s => !s.isEmpty

/-- The visible project record kept by the dashboard
(fields of the entity that the claims mention). -/
structure Project where
  status : String
  audio_url : Option String
  transcription : Option String
  summary : Option String
  error_message : Option String
deriving DecidableEq, Repr

/-- A WebSocket status message as consumed by `handleWebSocketUpdate`
(DashboardPage.jsx). `version` is the per-entity counter from the
StatusEvent data model. -/
structure WsMessage where
  type : String
  status : String
  transcription : Option String
  summary : Option String
  error_message : Option String
  version : Nat
deriving DecidableEq, Repr

/-- The event types the dashboard update handler reacts to:
`data.type === 'status' || 'completed' || 'error'`. -/
def isStatusType (t : String) : Bool :=
  t == "status" || t == "completed" || t == "error"

/-- JS nullish coalescing `d ?? fallback` on nullable strings. -/
def nullish (d fallback : Option String) : Option String :=
  match d with
  | some x => some x
  | none => fallback

/-- `handleWebSocketUpdate` of DashboardPage.jsx: the functional update
applied to the current project when a status/completed/error message
arrives. Status is overwritten; the other fields use `??` coalescing. -/
def handleWebSocketUpdate (data : WsMessage) (prev : Project) : Project :=
  if isStatusType data.type then
    { prev with
      status := data.status
      transcription := nullish data.transcription prev.transcription
      summary := nullish data.summary prev.summary
      error_message := nullish data.error_message prev.error_message }
  else prev

/-- The subscriber replay loop described by the spec: apply arriving
messages through `handleWebSocketUpdate`, discarding any whose `version`
is ≤ the last version seen, and advancing the last-seen marker on every
applied message. -/
def applyFiltered : Nat → Project → List WsMessage → Project
  | _, p, [] => p
  | lastSeen, p, e :: es =>
    if e.version ≤ lastSeen then applyFiltered lastSeen p es
    else applyFiltered e.version (handleWebSocketUpdate e p) es

/-- A message that carries a full snapshot of the visible state: an applied
event type with all three optional payload fields present. -/
def isSnapshot (e : WsMessage) : Bool :=
  isStatusType e.type && e.transcription.isSome && e.summary.isSome
    && e.error_message.isSome

/-- Plain in-order application of a list of messages (no filtering). -/
def applyInOrder (p : Project) (es : List WsMessage) : Project :=
  es.foldl (fun q e => handleWebSocketUpdate e q) p

theorem handleWebSocketUpdate_audio (e : WsMessage) (p : Project) :
    (handleWebSocketUpdate e p).audio_url = p.audio_url := by
  unfold handleWebSocketUpdate
  split <;> rfl

theorem handleWebSocketUpdate_snapshot_const (e : WsMessage)
    (he : isSnapshot e = true) (p q : Project)
    (haudio : p.audio_url = q.audio_url) :
    handleWebSocketUpdate e p = handleWebSocketUpdate e q := by
  have h := he
  simp only [isSnapshot, Bool.and_eq_true, Option.isSome_iff_exists] at h
  obtain ⟨⟨⟨ht, t, het⟩, s, hes⟩, m, hem⟩ := h
  simp [handleWebSocketUpdate, ht, nullish, het, hes, hem, haudio]

theorem applyFiltered_stale (lastSeen : Nat) (p : Project) (e : WsMessage)
    (es : List WsMessage) (h : e.version ≤ lastSeen) :
    applyFiltered lastSeen p (e :: es) = applyFiltered lastSeen p es := by
  simp [applyFiltered, h]

theorem applyFiltered_sorted_fresh (es : List WsMessage) :
    ∀ (lastSeen : Nat) (p : Project),
    es.Pairwise (fun a b => a.version < b.version) →
    (∀ e ∈ es, lastSeen < e.version) →
    applyFiltered lastSeen p es = applyInOrder p es := by
  induction es with
  | nil => intro lastSeen p _ _; rfl
  | cons e es ih =>
    intro lastSeen p hs hf
    have he : lastSeen < e.version := hf e (List.mem_cons_self e es)
    have hnot : ¬ e.version ≤ lastSeen := by omega
    have hs' : es.Pairwise (fun a b => a.version < b.version) :=
      (List.pairwise_cons.mp hs).2
    have hf' : ∀ b ∈ es, e.version < b.version := (List.pairwise_cons.mp hs).1
    simp only [applyFiltered, hnot, if_false, applyInOrder, List.foldl_cons]
    exact ih e.version (handleWebSocketUpdate e p) hs' hf'

theorem applyFiltered_swap (a b : WsMessage)
    (ha : isSnapshot a = true) (hb : isSnapshot b = true)
    (hne : a.version ≠ b.version) (lastSeen : Nat) (p : Project)
    (l : List WsMessage) :
    applyFiltered lastSeen p (a :: b :: l) =
      applyFiltered lastSeen p (b :: a :: l) := by
  by_cases h1 : a.version ≤ lastSeen <;> by_cases h2 : b.version ≤ lastSeen
  · simp [applyFiltered, h1, h2]
  · have h3 : a.version ≤ b.version := by omega
    simp [applyFiltered, h1, h2, h3]
  · have h3 : b.version ≤ a.version := by omega
    simp [applyFiltered, h1, h2, h3]
  · rcases Nat.lt_or_ge a.version b.version with hlt | hge
    · have h3 : ¬ b.version ≤ a.version := by omega
      have h4 : a.version ≤ b.version := by omega
      simp only [applyFiltered, h1, h2, h3, h4, if_false, if_true, if_pos,
        if_neg]
      rw [handleWebSocketUpdate_snapshot_const b hb
        (handleWebSocketUpdate a p) p (handleWebSocketUpdate_audio a p)]
    · have hlt' : b.version < a.version := by omega
      have h3 : ¬ a.version ≤ b.version := by omega
      have h4 : b.version ≤ a.version := by omega
      simp only [applyFiltered, h1, h2, h3, h4, if_false, if_true, if_pos,
        if_neg]
      rw [handleWebSocketUpdate_snapshot_const a ha
        (handleWebSocketUpdate b p) p (handleWebSocketUpdate_audio b p)]

theorem applyFiltered_perm {es es' : List WsMessage} (hp : es.Perm es')
    (hsnap : ∀ e ∈ es, isSnapshot e = true)
    (hnd : (es.map (fun e => e.version)).Nodup) :
    ∀ (lastSeen : Nat) (p : Project),
    applyFiltered lastSeen p es = applyFiltered lastSeen p es' := by
  induction hp with
  | nil => intro lastSeen p; rfl
  | cons x h ih =>
    intro lastSeen p
    have hsnap' : ∀ e ∈ _, isSnapshot e = true :=
      fun e he => hsnap e (List.mem_cons_of_mem x he)
    have hnd' := (List.nodup_cons.mp hnd).2
    by_cases hx : x.version ≤ lastSeen
    · simp only [applyFiltered, hx, if_true, if_pos]
      exact ih hsnap' hnd' lastSeen p
    · simp only [applyFiltered, hx, if_false, if_neg]
      exact ih hsnap' hnd' x.version (handleWebSocketUpdate x p)
  | swap x y l =>
    intro lastSeen p
    have hy : isSnapshot y = true := hsnap y (List.mem_cons_self y _)
    have hx : isSnapshot x = true :=
      hsnap x (List.mem_cons_of_mem y (List.mem_cons_self x l))
    have hne : y.version ≠ x.version := by
      have := (List.nodup_cons.mp hnd).1
      intro hcontra
      exact this (by
        simp only [List.map_cons, List.mem_cons]
        exact Or.inl hcontra)
    exact applyFiltered_swap y x hy hx hne lastSeen p l
  | trans h1 h2 ih1 ih2 =>
    intro lastSeen p
    have hsnap2 : ∀ e ∈ _, isSnapshot e = true :=
      fun e he => hsnap e (h1.mem_iff.mpr he)
    have hnd2 := ((h1.map (fun e => e.version)).nodup_iff).mp hnd
    exact (ih1 hsnap hnd lastSeen p).trans (ih2 hsnap2 hnd2 lastSeen p)

/-- Concrete initial project used in counterexamples and witnesses. -/
def blankProject : Project :=
  { status := "pending", audio_url := some "a.mp3", transcription := none,
    summary := none, error_message := none }

/-- Event with version 1 that carries a transcription delta. -/
def evTranscript : WsMessage :=
  { type := "status", status := "transcribing", transcription := some "T",
    summary := none, error_message := none, version := 1 }

/-- Event with version 2 whose transcription field is null (a delta). -/
def evCompleted : WsMessage :=
  { type := "completed", status := "completed", transcription := none,
    summary := none, error_message := none, version := 2 }

/-- Full-snapshot event with version 1. -/
def snapV1 : WsMessage :=
  { type := "status", status := "transcribing", transcription := some "T1",
    summary := some "", error_message := some "", version := 1 }

/-- Full-snapshot event with version 2. -/
def snapV2 : WsMessage :=
  { type := "completed", status := "completed", transcription := some "T1",
    summary := some "S", error_message := some "", version := 2 }

/-- C2 (counterexample): the claim as stated is false. The events
`evTranscript` (version 1, sets the transcription) and `evCompleted`
(version 2, transcription null) arriving out of order as
`[evCompleted, evTranscript]` through the version filter do NOT
reconstruct the state obtained by in-order application: the filter
discards version 1, losing its transcription, while in-order application
keeps it (the handler coalesces null fields from the previous state). -/
theorem C2_counterexample :
    [evTranscript, evCompleted].Perm [evCompleted, evTranscript]
    ∧ (∀ e ∈ [evTranscript, evCompleted], isStatusType e.type = true)
    ∧ applyFiltered 0 blankProject [evCompleted, evTranscript]
        ≠ applyInOrder blankProject [evTranscript, evCompleted] := by
  refine ⟨List.Perm.swap evCompleted evTranscript [], by decide, by decide⟩

/-- C2 (amended): application of StatusEvents through the version filter is
idempotent keyed by `version`: (a) an event whose version is ≤ the
last-seen version is discarded, leaving the visible state unchanged; and
(b) for events that carry full snapshots of the visible state (all payload
fields present), replaying any out-of-order arrival permutation while
discarding events with version ≤ lastSeen reconstructs exactly the state
produced by applying the events in version order. -/
theorem C2_version_filter_idempotent :
    (∀ (lastSeen : Nat) (p : Project) (e : WsMessage) (es : List WsMessage),
      e.version ≤ lastSeen →
      applyFiltered lastSeen p (e :: es) = applyFiltered lastSeen p es)
    ∧
    (∀ (lastSeen : Nat) (p : Project) (es arrival : List WsMessage),
      es.Perm arrival →
      (∀ e ∈ es, isSnapshot e = true) →
      es.Pairwise (fun a b => a.version < b.version) →
      (∀ e ∈ es, lastSeen < e.version) →
      applyFiltered lastSeen p arrival = applyInOrder p es) := by
  constructor
  · exact fun lastSeen p e es h => applyFiltered_stale lastSeen p e es h
  · intro lastSeen p es arrival hp hsnap hsorted hfresh
    have hnd : (es.map (fun e => e.version)).Nodup := by
      have hpw := hsorted.imp (fun {a b} h => Nat.ne_of_lt h)
      exact List.pairwise_map.mpr hpw
    calc applyFiltered lastSeen p arrival
        = applyFiltered lastSeen p es :=
          (applyFiltered_perm hp hsnap hnd lastSeen p).symm
      _ = applyInOrder p es :=
          applyFiltered_sorted_fresh es lastSeen p hsorted hfresh

/-- C2 (witness): the amended theorem applied at a concrete input — the
snapshot events with versions 1 and 2 arriving as `[snapV2, snapV1]`
reconstruct the in-order result. -/
theorem C2_version_filter_idempotent_witness :
    applyFiltered 0 blankProject [snapV2, snapV1]
      = applyInOrder blankProject [snapV1, snapV2] :=
  C2_version_filter_idempotent.2 0 blankProject [snapV1, snapV2]
    [snapV2, snapV1] (List.Perm.swap snapV2 snapV1 [])
    (by decide) (by decide) (by decide)

/-- C3: for every current project state and every WebSocket event of an
applied type (status/completed/error), if the event's transcription field
is null then the handler leaves the transcription unchanged; likewise for
summary; and when both are null, every field other than `status` and
`error_message` keeps its previous value. -/
theorem C3_failed_stage_preserves_results (p : Project) (d : WsMessage)
    (ht : isStatusType d.type = true) :
    (d.transcription = none →
      (handleWebSocketUpdate d p).transcription = p.transcription)
    ∧ (d.summary = none →
      (handleWebSocketUpdate d p).summary = p.summary)
    ∧ (d.transcription = none → d.summary = none →
      (handleWebSocketUpdate d p).transcription = p.transcription
      ∧ (handleWebSocketUpdate d p).summary = p.summary
      ∧ (handleWebSocketUpdate d p).audio_url = p.audio_url) := by
  refine ⟨fun h => ?_, fun h => ?_, fun h1 h2 => ⟨?_, ?_, ?_⟩⟩ <;>
    simp_all [handleWebSocketUpdate, nullish]

/-- C3 (witness): a concrete error event with null transcription and
summary leaves both fields of a concrete project intact. -/
theorem C3_failed_stage_preserves_results_witness :
    (handleWebSocketUpdate
        { type := "error", status := "failed", transcription := none,
          summary := none,
          error_message := some "boom", version := 3 }
        { status := "pending", audio_url := some "a.mp3",
          transcription := some "T", summary := some "S",
          error_message := none }).transcription = some "T" :=
  (C3_failed_stage_preserves_results
      { status := "pending", audio_url := some "a.mp3",
        transcription := some "T", summary := some "S",
        error_message := none }
      { type := "error", status := "failed", transcription := none,
        summary := none, error_message := some "boom", version := 3 }
      (by decide)).1 rfl

/-- A selectable model entry (useModels); only presence matters here. -/
structure ModelInfo where
  id : Nat
  display_name : String
deriving DecidableEq, Repr

/-- `canSummarize` of SummaryWidget (DashboardPage.jsx line 324):
`project && project.transcription && !project.summary &&
project.status !== 'summarizing'` under JS truthiness. -/
def canSummarize (project : Option Project) : Bool :=
  match project with
  | none => false
  | some p =>
    truthy p.transcription && !(truthy p.summary)
      && !(p.status == "summarizing")

/-- The Summarize button is rendered iff `canSummarize && model`. -/
def offersSummarize (project : Option Project) (model : Option ModelInfo) :
    Bool :=
  canSummarize project && model.isSome

/-- `canTranscribe` of TranscriptionWidget (DashboardPage.jsx line 209):
`project && project.audio_url && project.status === 'pending'`. -/
def canTranscribe (project : Option Project) : Bool :=
  match project with
  | none => false
  | some p => truthy p.audio_url && (p.status == "pending")

/-- The Transcribe button is rendered iff `canTranscribe && model`. -/
def offersTranscribe (project : Option Project) (model : Option ModelInfo) :
    Bool :=
  canTranscribe project && model.isSome

/-- The retry branch of TranscriptionWidget's content: rendered when the
widget is not in the processing branch (`status === 'transcribing'`), not
editing, the project has no (truthy) transcription, the project exists
with `status === 'failed'`, and a model is selected. The button invokes
the same `onTranscribe` (startTranscription) as the Transcribe button. -/
def offersRetryTranscribe (project : Option Project)
    (model : Option ModelInfo) (isEditing : Bool) : Bool :=
  match project with
  | none => false
  | some p =>
    !(p.status == "transcribing") && !isEditing
      && !(truthy p.transcription) && (p.status == "failed")
      && model.isSome

/-- C4: the dashboard offers the Summarize action only when the
transcription is present and non-empty; and a project in `pending` with no
transcript is never offered summarization. -/
theorem C4_summarize_requires_transcript :
    ∀ (project : Option Project) (model : Option ModelInfo),
    (offersSummarize project model = true →
      ∃ p t, project = some p ∧ p.transcription = some t ∧ t ≠ "")
    ∧ (∀ p, project = some p → p.status = "pending" →
        p.transcription = none → offersSummarize project model = false) := by
  intro project model
  constructor
  · intro h
    match project with
    | none => simp [offersSummarize, canSummarize] at h
    | some p =>
      unfold offersSummarize canSummarize at h
      repeat rw [Bool.and_eq_true] at h
      obtain ⟨⟨⟨ht, _⟩, _⟩, _⟩ := h
      rcases hp : p.transcription with _ | t
      · rw [hp] at ht
        exact absurd ht (by simp [truthy])
      · refine ⟨p, t, rfl, hp, fun hcontra => ?_⟩
        rw [hp, hcontra] at ht
        exact absurd ht (by decide)
  · intro p hp _ htr
    subst hp
    simp [offersSummarize, canSummarize, htr, truthy]

/-- C4 (witness): a concrete pending project without transcript is not
offered summarization. -/
theorem C4_summarize_requires_transcript_witness :
    offersSummarize (some blankProject) (some ⟨1, "gpt"⟩) = false :=
  (C4_summarize_requires_transcript (some blankProject)
      (some ⟨1, "gpt"⟩)).2 blankProject rfl rfl rfl

/-- The calls the dashboard can issue through its hooks; `start…` are the
billed stage dispatches, the rest are reads or local state updates. -/
inductive DashboardAction where
  | setProject
  | fetchProjects
  | fetchProject
  | getStatus
  | startTranscription (projectId modelId : Nat)
  | startSummarization (projectId modelId : Nat)
deriving DecidableEq, Repr

/-- A stage-dispatch (start) action. -/
def isStartAction : DashboardAction → Bool
  | DashboardAction.startTranscription _ _ => true
  | DashboardAction.startSummarization _ _ => true
  | _ => false

/-- The calls issued by one invocation of `handleWebSocketUpdate`
(DashboardPage.jsx lines 572–590): when the event type is applied and a
current project exists, update it, and refresh the project list when the
new status is `completed` or `failed`. -/
def wsUpdateActions (data : WsMessage) (currentProject : Option Project) :
    List DashboardAction :=
  if isStatusType data.type then
    match currentProject with
    | none => []
    | some _ =>
      DashboardAction.setProject ::
        (if data.status == "completed" || data.status == "failed"
         then [DashboardAction.fetchProjects] else [])
  else []

/-- The calls issued by one polling tick (DashboardPage.jsx lines
612–623): query the point-in-time status, and refetch the full project
and the list only when the polled status differs. -/
def pollTickActions (polledStatus currentStatus : String) :
    List DashboardAction :=
  DashboardAction.getStatus ::
    (if polledStatus != currentStatus
     then [DashboardAction.fetchProject, DashboardAction.fetchProjects]
     else [])

/-- `onClick` of the Transcribe button:
`onTranscribe(project.id, model.id)`. -/
def transcribeClickActions (projectId modelId : Nat) :
    List DashboardAction :=
  [DashboardAction.startTranscription projectId modelId]

/-- `onClick` of the retry button in the failed branch: the same
`onTranscribe(project.id, model.id)` call. -/
def retryClickActions (projectId modelId : Nat) : List DashboardAction :=
  [DashboardAction.startTranscription projectId modelId]

/-- C5: with a model selected, the Transcribe action is offered exactly
when the status is `pending` and a (truthy) audio reference is present;
the user-initiated retry is offered exactly when the status is `failed`
and no transcript exists, and its click issues the very same
startTranscription call as the Transcribe button; and no automatic retry
is ever issued — neither the WebSocket update handler nor a polling tick
ever produces a stage-dispatch action. -/
theorem C5_transcribe_state_machine :
    ∀ (p : Project) (m : ModelInfo),
    (offersTranscribe (some p) (some m) = true ↔
      truthy p.audio_url = true ∧ p.status = "pending")
    ∧ (offersRetryTranscribe (some p) (some m) false = true ↔
      p.status = "failed" ∧ truthy p.transcription = false)
    ∧ (∀ projectId modelId, retryClickActions projectId modelId
        = transcribeClickActions projectId modelId)
    ∧ (∀ (data : WsMessage) (cp : Option Project) (a : DashboardAction),
        a ∈ wsUpdateActions data cp → isStartAction a = false)
    ∧ (∀ (polled current : String) (a : DashboardAction),
        a ∈ pollTickActions polled current → isStartAction a = false) := by
  intro p m
  refine ⟨?_, ⟨?_, ?_⟩, fun _ _ => rfl, ?_, ?_⟩
  · simp [offersTranscribe, canTranscribe]
  · intro h
    unfold offersRetryTranscribe at h
    repeat rw [Bool.and_eq_true] at h
    obtain ⟨⟨⟨⟨_, _⟩, hc⟩, hd⟩, _⟩ := h
    refine ⟨by simpa using hd, by simpa using hc⟩
  · rintro ⟨h1, h2⟩
    simp [offersRetryTranscribe, h1, h2]
  · intro data cp a ha
    unfold wsUpdateActions at ha
    split at ha
    · match cp with
      | none => simp at ha
      | some q =>
        rw [List.mem_cons] at ha
        rcases ha with h | h
        · subst h; rfl
        · split at h
          · rw [List.mem_singleton] at h
            subst h; rfl
          · simp at h
    · simp at ha
  · intro polled current a ha
    unfold pollTickActions at ha
    rw [List.mem_cons] at ha
    rcases ha with h | h
    · subst h; rfl
    · split at h
      · rw [List.mem_cons, List.mem_singleton] at h
        rcases h with h | h <;> (subst h; rfl)
      · simp at h

/-- C5 (witness): a concrete failed project with no transcript is offered
the retry action, and the action the WebSocket handler concretely emits
for a status event is not a stage dispatch. -/
theorem C5_transcribe_state_machine_witness :
    offersRetryTranscribe
      (some { status := "failed", audio_url := some "a.mp3",
              transcription := none, summary := none,
              error_message := some "e" })
      (some ⟨1, "whisper"⟩) false = true
    ∧ isStartAction DashboardAction.setProject = false :=
  ⟨(C5_transcribe_state_machine
      { status := "failed", audio_url := some "a.mp3",
        transcription := none, summary := none,
        error_message := some "e" }
      ⟨1, "whisper"⟩).2.1.mpr ⟨rfl, rfl⟩,
   (C5_transcribe_state_machine blankProject ⟨1, "whisper"⟩).2.2.2.1
      evTranscript (some blankProject) DashboardAction.setProject
      (by decide)⟩

/-- `shouldPoll` of the dashboard polling fallback (DashboardPage.jsx):
`currentProject && ['transcribing','summarizing'].includes(status) &&
!wsConnected`. -/
def shouldPoll (currentProject : Option Project) (wsConnected : Bool) :
    Bool :=
  match currentProject with
  | none => false
  | some p =>
    ((p.status == "transcribing") || (p.status == "summarizing"))
      && !wsConnected

/-- The polling period passed to `setInterval` (milliseconds). -/
def pollIntervalMs : Nat := 3000

/-- One polling tick: the full project is refetched iff the freshly polled
status differs from the locally known status. -/
def pollRefetch (polledStatus currentStatus : String) : Bool :=
  polledStatus != currentStatus

/-- C6: the polling fallback is active iff the current project's status is
`transcribing` or `summarizing` and the WebSocket is not connected; the
poll period is 3000 ms, within the recommended 5-second bound; and a tick
refetches the full project iff the polled status differs from the local
one. -/
theorem C6_polling_fallback :
    (∀ (cp : Option Project) (ws : Bool),
      shouldPoll cp ws = true ↔
        (∃ p, cp = some p ∧
          (p.status = "transcribing" ∨ p.status = "summarizing"))
        ∧ ws = false)
    ∧ pollIntervalMs = 3000
    ∧ pollIntervalMs ≤ 5000
    ∧ (∀ s c, pollRefetch s c = true ↔ s ≠ c) := by
  refine ⟨?_, rfl, by decide, ?_⟩
  · intro cp ws
    match cp with
    | none => simp [shouldPoll]
    | some p =>
      simp only [shouldPoll, Bool.and_eq_true, Bool.or_eq_true,
        beq_iff_eq, Bool.not_eq_true']
      constructor
      · intro ⟨h1, h2⟩; exact ⟨⟨p, rfl, h1⟩, h2⟩
      · intro ⟨⟨q, hq, h1⟩, h2⟩
        cases hq
        exact ⟨h1, h2⟩
  · intro s c
    simp [pollRefetch, bne_iff_ne]

/-- C6 (witness): the fallback is concretely active for a transcribing
project with the socket down. -/
theorem C6_polling_fallback_witness :
    shouldPoll
      (some { status := "transcribing", audio_url := some "a.mp3",
              transcription := none, summary := none,
              error_message := none }) false = true :=
  (C6_polling_fallback.1
      (some { status := "transcribing", audio_url := some "a.mp3",
              transcription := none, summary := none,
              error_message := none }) false).mpr
    ⟨⟨{ status := "transcribing", audio_url := some "a.mp3",
        transcription := none, summary := none, error_message := none },
      rfl, Or.inl rfl⟩, rfl⟩

/-- The keepalive period of the WebSocket client (useWebSocket.js). -/
def pingIntervalMs : Nat := 25000

/-- One keepalive tick: a `'ping'` frame is sent iff the socket is OPEN. -/
def sendPingTick (readyStateOpen : Bool) : Option String :=
  if readyStateOpen then some "ping" else none

/-- `ws.onmessage` of useWebSocket.js: `'pong'` and `'ping'` frames are
swallowed; any other frame is JSON-parsed and, on success, handed to the
update callback. -/
def deliverWsMessage (parse : String → Option WsMessage) (raw : String) :
    Option WsMessage :=
  if raw == "pong" || raw == "ping" then none else parse raw

/-- C7: the keepalive probe is sent every 25000 ms (within the recommended
30-second bound) whenever the socket is open, and incoming `'ping'` and
`'pong'` frames are never delivered to the update handler. -/
theorem C7_keepalive :
    pingIntervalMs = 25000
    ∧ pingIntervalMs ≤ 30000
    ∧ sendPingTick true = some "ping"
    ∧ sendPingTick false = none
    ∧ (∀ parse : String → Option WsMessage,
        deliverWsMessage parse "ping" = none
        ∧ deliverWsMessage parse "pong" = none) :=
  ⟨rfl, by decide, rfl, rfl, fun parse => ⟨rfl, rfl⟩⟩

/-- C7 (witness): a `'ping'` frame is concretely swallowed even when the
parser would produce a message. -/
theorem C7_keepalive_witness :
    deliverWsMessage (fun _ => some snapV1) "ping" = none :=
  (C7_keepalive.2.2.2.2 (fun _ => some snapV1)).1

/-- Token-exchange response of `completeGoogleDriveAuth`. -/
structure TokenResult where
  project_id : String
  access_token : String
deriving DecidableEq, Repr

/-- Network calls the OAuth callback page can make, in order. -/
inductive ExportCall where
  | exchange (code state : String)
  | upload (projectId accessToken : String)
deriving DecidableEq, Repr

/-- Terminal display status of the callback page. -/
inductive CallbackStatus where
  | success
  | failed
deriving DecidableEq, Repr

/-- The try-block of `handleCallback` once the parameters passed
validation: exchange the code, then upload with the returned credentials;
a thrown error at either step ends in the error display state. -/
def exchangePhase (c s : String)
    (completeAuth : String → String → Except String TokenResult)
    (uploadFn : String → String → Except String String) :
    CallbackStatus × List ExportCall :=
  match completeAuth c s with
  | Except.error _ => (CallbackStatus.failed, [ExportCall.exchange c s])
  | Except.ok tr =>
    match uploadFn tr.project_id tr.access_token with
    | Except.error _ =>
      (CallbackStatus.failed,
        [ExportCall.exchange c s,
         ExportCall.upload tr.project_id tr.access_token])
    | Except.ok _ =>
      (CallbackStatus.success,
        [ExportCall.exchange c s,
         ExportCall.upload tr.project_id tr.access_token])

/-- `handleCallback` of GoogleDriveCallbackPage.jsx. URL parameters come
from `searchParams.get` (`none` when absent); the source tests them with
JS truthiness, so an empty-string value behaves like an absent one. The
result records the final display status and the ordered list of network
calls made. -/
def handleCallback (codeParam stateParam errorParam : Option String)
    (completeAuth : String → String → Except String TokenResult)
    (uploadFn : String → String → Except String String) :
    CallbackStatus × List ExportCall :=
  if truthy errorParam then (CallbackStatus.failed, [])
  else
    match codeParam, stateParam with
    | some c, some s =>
      if c.isEmpty || s.isEmpty then (CallbackStatus.failed, [])
      else exchangePhase c s completeAuth uploadFn
    | _, _ => (CallbackStatus.failed, [])

theorem exchangePhase_calls (c s : String)
    (completeAuth : String → String → Except String TokenResult)
    (uploadFn : String → String → Except String String) :
    (exchangePhase c s completeAuth uploadFn).2
      = ExportCall.exchange c s ::
        (match completeAuth c s with
         | Except.ok tr =>
           [ExportCall.upload tr.project_id tr.access_token]
         | Except.error _ => []) := by
  unfold exchangePhase
  rcases completeAuth c s with msg | tr
  · rfl
  · dsimp only
    rcases uploadFn tr.project_id tr.access_token with msg | link <;> rfl

/-- Exchange stub that always succeeds, for concrete evaluations. -/
def authOk : String → String → Except String TokenResult :=
  fun _ _ => Except.ok { project_id := "p1", access_token := "tok" }

/-- Upload stub that always succeeds, for concrete evaluations. -/
def uploadOk : String → String → Except String String :=
  fun _ _ => Except.ok "link"

/-- C8 (counterexample): the claim as stated is false. With the URL
parameters `code=c`, `state=s` and `error` present with an empty value
(`?error=`), the claim requires no token-exchange and no upload; but the
source tests `if (error)` under JS truthiness, so the empty `error` is
ignored and the exchange and upload both run, ending in success. -/
theorem C8_counterexample :
    (handleCallback (some "c") (some "s") (some "") authOk uploadOk).2
      ≠ []
    ∧ (handleCallback (some "c") (some "s") (some "") authOk uploadOk).1
      = CallbackStatus.success := by
  refine ⟨?_, rfl⟩
  decide

/-- C8 (amended): on the OAuth export callback, if the `error` parameter
is present with a non-empty value, or `code` or `state` is missing or
empty, the page makes no token-exchange and no upload call and reports an
error; otherwise it performs the token exchange with `code` and `state`
exactly once, first, and any upload call uses exactly the `project_id`
and `access_token` returned by the exchange (and runs only when the
exchange succeeded). -/
theorem C8_callback_flow :
    ∀ (codeParam stateParam errorParam : Option String)
      (completeAuth : String → String → Except String TokenResult)
      (uploadFn : String → String → Except String String),
    (truthy errorParam = true →
      handleCallback codeParam stateParam errorParam completeAuth uploadFn
        = (CallbackStatus.failed, []))
    ∧ (truthy codeParam = false ∨ truthy stateParam = false →
      handleCallback codeParam stateParam errorParam completeAuth uploadFn
        = (CallbackStatus.failed, []))
    ∧ (∀ c s, truthy errorParam = false → codeParam = some c →
        stateParam = some s → c.isEmpty = false → s.isEmpty = false →
      (handleCallback codeParam stateParam errorParam completeAuth
          uploadFn).2
        = ExportCall.exchange c s ::
          (match completeAuth c s with
           | Except.ok tr =>
             [ExportCall.upload tr.project_id tr.access_token]
           | Except.error _ => [])) := by
  intro codeParam stateParam errorParam completeAuth uploadFn
  refine ⟨fun he => ?_, fun hcs => ?_, fun c s he hc hs hce hse => ?_⟩
  · simp [handleCallback, he]
  · unfold handleCallback
    rcases hcs with h | h
    · split
      · rfl
      · match codeParam, stateParam with
        | none, _ => rfl
        | some c, none => rfl
        | some c, some s =>
          have : c.isEmpty = true := by
            rw [truthy] at h
            simpa using h
          simp [this]
    · split
      · rfl
      · match codeParam, stateParam with
        | none, _ => rfl
        | some c, none => rfl
        | some c, some s =>
          have : s.isEmpty = true := by
            rw [truthy] at h
            simpa using h
          simp [this]
  · subst hc; subst hs
    have hstep : handleCallback (some c) (some s) errorParam completeAuth
        uploadFn = exchangePhase c s completeAuth uploadFn := by
      simp [handleCallback, he, hce, hse]
    rw [hstep]
    exact exchangePhase_calls c s completeAuth uploadFn

/-- C8 (witness): the amended theorem at concrete inputs — with valid
`code` and `state` and no error parameter, the calls are exactly one
exchange followed by the upload built from the exchange's result. -/
theorem C8_callback_flow_witness :
    (handleCallback (some "c") (some "s") none authOk uploadOk).2
      = [ExportCall.exchange "c" "s", ExportCall.upload "p1" "tok"] := by
  have h := (C8_callback_flow (some "c") (some "s") none authOk
      uploadOk).2.2 "c" "s" rfl rfl rfl rfl rfl
  simpa [authOk] using h

/-- Effects the WebSocket client issues on teardown events. -/
inductive WsEffect where
  | clearReconnect
  | clearPing
  | closeSocket (code : Nat) (reason : String)
  | scheduleReconnect (delayMs : Nat)
deriving DecidableEq, Repr

/-- Timer state of the WebSocket hook (which refs are non-null). -/
structure WsClientState where
  reconnectPending : Bool
  pingActive : Bool
  socketOpen : Bool
deriving DecidableEq, Repr

/-- Reconnect delay used in `ws.onclose` (milliseconds). -/
def reconnectDelayMs : Nat := 3000

/-- `ws.onclose` reconnect condition:
`event.code !== 1000 && event.code !== 4001 && event.code !== 4003`. -/
def shouldReconnect (code : Nat) : Bool :=
  !(code == 1000) && !(code == 4001) && !(code == 4003)

/-- Effects of `ws.onclose` (useWebSocket.js): always clear the ping
interval when one is active, then schedule exactly one reconnect after
`reconnectDelayMs` unless the close code is 1000/4001/4003. -/
def onCloseEffects (code : Nat) (st : WsClientState) : List WsEffect :=
  (if st.pingActive then [WsEffect.clearPing] else [])
    ++ (if shouldReconnect code
        then [WsEffect.scheduleReconnect reconnectDelayMs] else [])

/-- Effects of `disconnect` (useWebSocket.js): clear a pending reconnect
timer, clear the ping interval, then close the socket with code 1000. -/
def disconnectEffects (st : WsClientState) : List WsEffect :=
  (if st.reconnectPending then [WsEffect.clearReconnect] else [])
    ++ (if st.pingActive then [WsEffect.clearPing] else [])
    ++ (if st.socketOpen
        then [WsEffect.closeSocket 1000 "User disconnected"] else [])

/-- Recognizes a scheduled-reconnect effect. -/
def isScheduleEffect : WsEffect → Bool
  | WsEffect.scheduleReconnect _ => true
  | _ => false

/-- C9: closing with code 1000, 4001 or 4003 never schedules a reconnect;
any other close code schedules exactly one reconnect, after 3000 ms; and
an explicit disconnect schedules no reconnect, cancels the pending
reconnect timer and keepalive interval, and does so before issuing the
single close with code 1000. -/
theorem C9_reconnect_policy :
    ∀ (code : Nat) (st : WsClientState),
    ((code = 1000 ∨ code = 4001 ∨ code = 4003) →
      (onCloseEffects code st).filter isScheduleEffect = [])
    ∧ (code ≠ 1000 → code ≠ 4001 → code ≠ 4003 →
      (onCloseEffects code st).filter isScheduleEffect
        = [WsEffect.scheduleReconnect 3000])
    ∧ (disconnectEffects st).filter isScheduleEffect = []
    ∧ (st.socketOpen = true →
      ∃ pre, disconnectEffects st
          = pre ++ [WsEffect.closeSocket 1000 "User disconnected"]
        ∧ (∀ c r, WsEffect.closeSocket c r ∉ pre)
        ∧ (st.reconnectPending = true → WsEffect.clearReconnect ∈ pre)
        ∧ (st.pingActive = true → WsEffect.clearPing ∈ pre)) := by
  intro code st
  obtain ⟨rp, pa, so⟩ := st
  refine ⟨fun h => ?_, fun h1 h2 h3 => ?_, ?_, fun hso => ?_⟩
  · have hsr : shouldReconnect code = false := by
      rcases h with h | h | h <;> subst h <;> decide
    cases pa <;> simp [onCloseEffects, hsr, isScheduleEffect]
  · have hsr : shouldReconnect code = true := by
      simp [shouldReconnect, h1, h2, h3]
    cases pa <;>
      simp [onCloseEffects, hsr, isScheduleEffect, reconnectDelayMs,
        List.filter]
  · cases rp <;> cases pa <;> cases so <;>
      simp [disconnectEffects, isScheduleEffect, List.filter]
  · simp only at hso
    subst hso
    cases rp <;> cases pa
    · exact ⟨[], rfl, by simp, by simp, by simp⟩
    · exact ⟨[WsEffect.clearPing], rfl, by simp, by simp, by simp⟩
    · exact ⟨[WsEffect.clearReconnect], rfl, by simp, by simp, by simp⟩
    · exact ⟨[WsEffect.clearReconnect, WsEffect.clearPing], rfl,
        by simp, by simp, by simp⟩

/-- C9 (witness): at close code 1006 every part holds concretely — one
reconnect scheduled after 3000 ms, and disconnect from the fully active
state clears both timers before the single close(1000). -/
theorem C9_reconnect_policy_witness :
    (onCloseEffects 1006 ⟨true, true, true⟩).filter isScheduleEffect
      = [WsEffect.scheduleReconnect 3000]
    ∧ (disconnectEffects ⟨true, true, true⟩).filter isScheduleEffect
      = [] :=
  ⟨(C9_reconnect_policy 1006 ⟨true, true, true⟩).2.1
      (by decide) (by decide) (by decide),
   (C9_reconnect_policy 1006 ⟨true, true, true⟩).2.2.1⟩

/-- The slice of an HTTP response that `useApi.request` inspects: the
status code and the `detail` field of the JSON error body (if the body
parses and has one; `response.json().catch(() => ({}))`). -/
structure ApiResponse where
  status : Nat
  detail : Option String
deriving DecidableEq, Repr

/-- Outcome of `useApi.request`: a resolved value (`none` models the JS
`null` returned for 204), or a rejection carrying the error message. -/
inductive ApiOutcome (α : Type) where
  | resolved : Option α → ApiOutcome α
  | rejected : String → ApiOutcome α
deriving DecidableEq, Repr

/-- Stored-session state touched by `signOut` (AuthContext). -/
structure AuthState where
  token : Option String
deriving DecidableEq, Repr

/-- `signOut` of AuthContext always ends with
`localStorage.removeItem('access_token')`. -/
def signOutState (st : AuthState) : AuthState :=
  { st with token := none }

/-- `fetch`'s `response.ok`: status in the range 200–299. -/
def respOk (status : Nat) : Bool :=
  decide (200 ≤ status ∧ status < 300)

/-- JS `a || b` on a nullable string: the fallback is used when the left
side is null, undefined or the empty string (all falsy). -/
def jsOr (d : Option String) (fallback : String) : String :=
  match d with
  | none => fallback
  | some s => if s.isEmpty then fallback else s

/-- `useApi.request`: 401 signs out and rejects with the fixed session
message; any other non-ok status rejects with
`error.detail || 'Request failed: <status>'` (JS `||`, so an absent or
empty `detail` falls back); 204 resolves to null; other ok statuses
resolve to the parsed body. -/
def request (st : AuthState) (resp : ApiResponse) (body : α) :
    AuthState × ApiOutcome α :=
  if resp.status = 401 then
    (signOutState st,
     ApiOutcome.rejected "Session expired. Please sign in again.")
  else if !respOk resp.status then
    (st, ApiOutcome.rejected
      (jsOr resp.detail ("Request failed: " ++ toString resp.status)))
  else if resp.status = 204 then (st, ApiOutcome.resolved none)
  else (st, ApiOutcome.resolved (some body))

/-- C10: through the shared API layer, a 401 clears the stored access
token and rejects with exactly `Session expired. Please sign in again.`;
a 204 resolves to null; and any other non-ok response rejects — with the
server-provided `detail` message when the body carries a non-empty one,
and with the fallback `Request failed: <status>` when `detail` is absent
or empty (JS `||`) — and never resolves to a value. -/
theorem C10_request_errors :
    ∀ (st : AuthState) (resp : ApiResponse) (body : String),
    (resp.status = 401 →
      (request st resp body).1.token = none
      ∧ (request st resp body).2
        = ApiOutcome.rejected "Session expired. Please sign in again.")
    ∧ (resp.status = 204 →
      (request st resp body).2 = ApiOutcome.resolved none)
    ∧ (respOk resp.status = false → resp.status ≠ 401 →
      (∀ d, resp.detail = some d → d.isEmpty = false →
        (request st resp body).2 = ApiOutcome.rejected d)
      ∧ (resp.detail = none ∨ resp.detail = some "" →
        (request st resp body).2
          = ApiOutcome.rejected ("Request failed: " ++ toString resp.status))
      ∧ ∀ v, (request st resp body).2 ≠ ApiOutcome.resolved v) := by
  intro st resp body
  refine ⟨fun h401 => ?_, fun h204 => ?_, fun hok h401 => ⟨?_, ?_, ?_⟩⟩
  · simp [request, h401, signOutState]
  · simp [request, h204, respOk]
  · intro d hd hde
    simp [request, h401, hok, jsOr, hd, hde]
  · intro hd
    have hemp : "".isEmpty = true := rfl
    rcases hd with hd | hd <;> simp [request, h401, hok, jsOr, hd, hemp]
  · intro v
    simp [request, h401, hok]

/-- C10 (witness): a concrete 401 response clears a stored token and
rejects with the session-expired message. -/
theorem C10_request_errors_witness :
    (request { token := some "tok" }
        { status := 401, detail := none } "body").1.token = none :=
  ((C10_request_errors { token := some "tok" }
      { status := 401, detail := none } "body").1 rfl).1

/-! The backend Job Dispatcher is not among the repository's frontend
sources; the following definitions are modelled from the specification
(§3, §4.1, §7). -/

/-- Modelled from the spec: the `stage` values of a ProcessingEntity
(§3); the Job Dispatcher itself is not in the frontend sources. -/
inductive Stage where
  | pending
  | uploading
  | transcribing
  | summarizing
  | completed
  | failed
deriving DecidableEq, Repr

/-- Modelled from the spec: the two processing stage kinds (§3 StageJob). -/
inductive StageKind where
  | transcription
  | summarization
deriving DecidableEq, Repr

/-- Modelled from the spec: the ProcessingEntity fields `startStage`
consults and mutates (§3); the Job Dispatcher is not in the frontend
sources. -/
structure Entity where
  stage : Stage
  transcriptionText : Option String
  activeJobId : Option Nat
  version : Nat
deriving DecidableEq, Repr

/-- Modelled from the spec: synchronous outcomes of `startStage` (§6). -/
inductive StartResult where
  | accepted
  | conflictError
  | validationError
deriving DecidableEq, Repr

/-- The in-progress stage entered on acceptance of a stage kind (§4.1). -/
def inProgressStage : StageKind → Stage
  | StageKind.transcription => Stage.transcribing
  | StageKind.summarization => Stage.summarizing

/-- Modelled from the spec: the §4.1 state-machine rows that allow a
start — `Pending --start--> in-progress` and `Failed --start--> retry`,
with `Summarization` additionally requiring a non-empty transcript. -/
def validStartState (e : Entity) (k : StageKind) : Bool :=
  match k with
  | StageKind.transcription =>
    decide (e.stage = Stage.pending ∨ e.stage = Stage.failed)
  | StageKind.summarization =>
    decide (e.stage = Stage.pending ∨ e.stage = Stage.failed)
      && truthy e.transcriptionText

/-- All synchronous preconditions of `startStage` at once. -/
def canStart (e : Entity) (k : StageKind) : Bool :=
  decide (e.activeJobId = none) && validStartState e k

/-- Modelled from the spec: `startStage(entityId, stageKind, providerId)`
(§4.1); the Job Dispatcher is not in the frontend sources. The
precondition check and the transition are one atomic step: reject with
`ConflictError` when `activeJobId` is set, reject with `ValidationError`
when the state machine forbids the start, otherwise enter the in-progress
stage, assign `activeJobId` and increment `version`. -/
def startStage (e : Entity) (k : StageKind) (jobId : Nat) :
    StartResult × Entity :=
  if e.activeJobId.isSome then (StartResult.conflictError, e)
  else if validStartState e k then
    (StartResult.accepted,
     { e with stage := inProgressStage k, activeJobId := some jobId,
              version := e.version + 1 })
  else (StartResult.validationError, e)

/-- C1: `startStage` rejects with `ConflictError` (and leaves the entity
untouched) whenever `activeJobId` is already set; and since the check and
transition are one atomic step, two calls in rapid succession for the
same entity and stage — in whichever order they are serialized — yield
exactly one `accepted` and one `ConflictError`. -/
theorem C1_startStage_conflict :
    ∀ (e : Entity) (k : StageKind) (j1 j2 : Nat),
    (e.activeJobId.isSome = true →
      startStage e k j1 = (StartResult.conflictError, e))
    ∧ (canStart e k = true →
      (startStage e k j1).1 = StartResult.accepted
      ∧ (startStage (startStage e k j1).2 k j2).1
        = StartResult.conflictError) := by
  intro e k j1 j2
  constructor
  · intro h
    simp [startStage, h]
  · intro h
    rw [canStart, Bool.and_eq_true, decide_eq_true_iff] at h
    obtain ⟨hnone, hvalid⟩ := h
    have hns : e.activeJobId.isSome = false := by
      rw [hnone]; rfl
    constructor
    · simp [startStage, hns, hvalid]
    · simp [startStage, hns, hvalid]

/-- C1 (witness): a concrete pending entity accepts a transcription start
and the immediately following second start for the same stage conflicts. -/
theorem C1_startStage_conflict_witness :
    (startStage
        { stage := Stage.pending, transcriptionText := none,
          activeJobId := none, version := 0 }
        StageKind.transcription 1).1 = StartResult.accepted
    ∧ (startStage
        (startStage
          { stage := Stage.pending, transcriptionText := none,
            activeJobId := none, version := 0 }
          StageKind.transcription 1).2
        StageKind.transcription 2).1 = StartResult.conflictError :=
  (C1_startStage_conflict
      { stage := Stage.pending, transcriptionText := none,
        activeJobId := none, version := 0 }
      StageKind.transcription 1 2).2 (by decide)

end Scribber
